import Mathlib

/-!
Verification of the ytdown-web download orchestrator (src/app.py, src/downloader.py)
against its natural-language specification.

The Python sources are shallowly embedded:
- URL regexes (downloader.py 13-24) become an executable Brzozowski-derivative
  regex matcher over hand-transcribed regex syntax trees;
- the retry decision inside `download_video` / `download_audio`
  (downloader.py 217-221, 302-306) becomes the pure function `retryDecision`;
- `download_via_cobalt` (downloader.py 35-117) becomes `cobaltDownload`, a pure
  function of an environment recording the HTTP responses, the received chunks
  and the observed filesystem; progress-callback invocations become an event list;
- `run_download` (app.py 69-106) becomes `runAssigns` / `runDownload`: the exact
  sequence of task-dict field assignments the function performs, and the trace of
  task-record states after each single assignment (each assignment is a point at
  which a concurrent reader can observe the record);
- the SSE generator of `get_progress` (app.py 109-138) becomes `getProgressGen`,
  a function of the sequence of task-store lookups seen at each poll instant;
- `download_file` / `cleanup_later` (app.py 141-176) become `downloadFile` /
  `cleanupRun`.

Python floats are modelled by ℚ (the arithmetic performed on the progress values
is exact at this scale); f-string float formatting is modelled by rational
rounding; `str.isalnum` is modelled by `Char.isAlphanum` (the claims under
verification do not depend on the exact Unicode alphanumeric set); exceptions of
a collaborator call are modelled at the call boundary with `Except` / `CallResult`.
-/

/-! ## String helpers -/

/-- Python slicing `s[:n]` on `str`. -/
def strTake (n : Nat) (s : String) : String := String.mk (s.data.take n)

/-- Does `pat` occur at the head of `l`? (helper for substring search). -/
def leadsCL : List Char → List Char → Bool
  | [], _ => true
  | _ :: _, [] => false
  | a :: as, b :: bs => a == b && leadsCL as bs

/-- Does `pat` occur anywhere inside `l`? (helper for substring search). -/
def occursCL (pat : List Char) : List Char → Bool
  | [] => leadsCL pat []
  | b :: bs => leadsCL pat (b :: bs) || occursCL pat bs

/-- Python `pat in s` on strings: substring containment. -/
def strContains (s pat : String) : Bool := occursCL pat.data s.data

/-! ## Regular expressions (downloader.py 13-24)

A small executable regex core (Brzozowski derivatives) sufficient for the three
URL patterns of `WebDownloader`.  `re.match` is truthy iff some (possibly empty)
prefix of the input belongs to the pattern's language, which is what
`reMatchSome` computes. -/

inductive RE
  | emp
  | eps
  | pred (p : Char → Bool)
  | cat (r s : RE)
  | alt (r s : RE)
  | star (r : RE)

def nullable : RE → Bool
  | RE.emp => false
  | RE.eps => true
  | RE.pred _ => false
  | RE.cat r s => nullable r && nullable s
  | RE.alt r s => nullable r || nullable s
  | RE.star _ => true

/-- Size-controlling concatenation constructor. -/
def catS : RE → RE → RE
  | RE.emp, _ => RE.emp
  | RE.eps, s => s
  | _, RE.emp => RE.emp
  | r, RE.eps => r
  | r, s => RE.cat r s

/-- Size-controlling alternation constructor. -/
def altS : RE → RE → RE
  | RE.emp, s => s
  | r, RE.emp => r
  | r, s => RE.alt r s

def derivRE (c : Char) : RE → RE
  | RE.emp => RE.emp
  | RE.eps => RE.emp
  | RE.pred p => if p c then RE.eps else RE.emp
  | RE.cat r s =>
    if nullable r then altS (catS (derivRE c r) s) (derivRE c s)
    else catS (derivRE c r) s
  | RE.alt r s => altS (derivRE c r) (derivRE c s)
  | RE.star r => catS (derivRE c r) (RE.star r)

/-- `re.match(pattern, input)` truthiness: some prefix of the input matches. -/
def reMatchSome (r : RE) : List Char → Bool
  | [] => nullable r
  | c :: cs => nullable r || reMatchSome (derivRE c r) cs

def chRE (c : Char) : RE := RE.pred (fun x => x == c)

def strRE (s : String) : RE := s.data.foldr (fun c acc => RE.cat (chRE c) acc) RE.eps

def optRE (r : RE) : RE := RE.alt RE.eps r

def plusRE (r : RE) : RE := RE.cat r (RE.star r)

def repRE (r : RE) : Nat → RE
  | 0 => RE.eps
  | n + 1 => RE.cat r (repRE r n)

/-- `.` in a Python regex without DOTALL: any character except a newline. -/
def anyNotNl : RE := RE.pred (fun c => !(c == '\n'))

/-- `\w`: alphanumeric or underscore. -/
def wordCharRE : RE := RE.pred (fun c => c.isAlphanum || c == '_')

/-- `(https?://)?` -/
def schemeRE : RE := optRE (RE.cat (strRE "http") (RE.cat (optRE (chRE 's')) (strRE "://")))

/-- `(www\.)?` -/
def wwwRE : RE := optRE (strRE "www.")

/-- `WebDownloader.YOUTUBE_REGEX` (downloader.py 13-16). -/
def youtubeRE : RE :=
  RE.cat schemeRE <| RE.cat wwwRE <|
  RE.cat (RE.alt (strRE "youtube") (RE.alt (strRE "youtu") (strRE "youtube-nocookie"))) <|
  RE.cat (chRE '.') <| RE.cat (RE.alt (strRE "com") (strRE "be")) <| RE.cat (chRE '/') <|
  RE.cat (optRE (RE.alt (strRE "watch?v=")
                (RE.alt (strRE "embed/")
                (RE.alt (strRE "v/")
                (RE.alt (RE.cat (plusRE anyNotNl) (strRE "?v="))
                        (strRE "shorts/"))))))
    (repRE (RE.pred (fun c => !(c == '&' || c == '=' || c == '%' || c == '?'))) 11)

/-- `WebDownloader.INSTAGRAM_REGEX` (downloader.py 18-20). -/
def instagramRE : RE :=
  RE.cat schemeRE <| RE.cat wwwRE <| RE.cat (strRE "instagram.com/") <|
  RE.cat (RE.alt (strRE "p") (RE.alt (strRE "reel") (RE.alt (strRE "reels") (strRE "tv")))) <|
  RE.cat (chRE '/') (plusRE (RE.pred (fun c => c.isAlphanum || c == '_' || c == '-')))

/-- `WebDownloader.TIKTOK_REGEX` (downloader.py 22-24). -/
def tiktokRE : RE :=
  RE.cat schemeRE <|
  RE.cat (optRE (RE.alt (strRE "www.") (RE.alt (strRE "vm.") (strRE "vt.")))) <|
  RE.cat (strRE "tiktok.com/") <|
  RE.alt
    (RE.cat (chRE '@') <|
     RE.cat (plusRE (RE.pred (fun c => c.isAlphanum || c == '_' || c == '.'))) <|
     RE.cat (strRE "/video/") (plusRE (RE.pred Char.isDigit)))
    (RE.cat (plusRE wordCharRE) (optRE (chRE '/')))

/-- `WebDownloader.is_youtube_url` (downloader.py 31-33). -/
def is_youtube_url (url : String) : Bool := reMatchSome youtubeRE url.data

/-- `WebDownloader.validate_url` (downloader.py 119-126). -/
def validate_url (url : String) : Bool :=
  reMatchSome youtubeRE url.data || reMatchSome instagramRE url.data ||
    reMatchSome tiktokRE url.data

/-! ## Retry decision (downloader.py 213-225 / 298-310)

Both `download_video` and `download_audio` react to an extraction exception
identically: if the error text contains `'403'` or `'Forbidden'` and fewer than
2 retries were consumed, recurse with the next format strategy; otherwise report
the error and return None. -/

inductive Decision
  | retry
  | fail
deriving DecidableEq

/-- The retry/escalation decision of downloader.py 217-221 (and 302-306). -/
def retryDecision (errorStr : String) (attempt : Nat) : Decision :=
  if strContains errorStr "403" || strContains errorStr "Forbidden" then
    if attempt < 2 then Decision.retry else Decision.fail
  else Decision.fail

/-! ## cobalt downloads (downloader.py 35-117)

`download_via_cobalt` performs two HTTP calls (the JSON API request and the file
transfer) and writes chunks to a file.  The environment records what each call
produced (`CallResult.exc` models an exception raised by the call, which the
function's `except` swallows), the announced content length and the received
chunk sizes, the observed filesystem (path ↦ file size, `none` when absent) and
the temporary directory.  The returned pair is the ordered list of
`progress_callback (percent, message)` invocations and the returned file path
(`none` models Python `None`). -/

inductive CallResult (α : Type)
  | ok (a : α)
  | exc (e : String)

structure PostResp where
  statusCode : Nat
  jsonStatus : Option String
  jsonText : Option String
  jsonUrl : Option String

structure FileGet where
  contentLength : Nat
  chunks : List Nat

structure CobaltEnv where
  post : CallResult PostResp
  fileGet : CallResult FileGet
  fs : String → Option Nat
  tempDir : String

/-- Python `f"{q:.0f}"`, modelled by rational rounding. -/
def fmtPct0 (q : ℚ) : String := toString (round q)

/-- The chunk-writing loop of downloader.py 99-106: empty chunks are skipped,
`downloaded` accumulates, and a progress event is emitted when the announced
content length is positive. -/
def chunkEvents (total : Nat) : List Nat → Nat → List (ℚ × String)
  | [], _ => []
  | c :: cs, downloaded =>
    if c = 0 then chunkEvents total cs downloaded
    else
      let d := downloaded + c
      if 0 < total then
        let percent : ℚ := 30 + ((d : ℚ) / (total : ℚ)) * 65
        (percent, "다운로드 중... " ++ fmtPct0 percent ++ "%") :: chunkEvents total cs d
      else chunkEvents total cs d

/-- `WebDownloader.download_via_cobalt` (downloader.py 35-117). -/
def cobaltDownload (env : CobaltEnv) (taskId : String) (audioOnly : Bool) :
    List (ℚ × String) × Option String :=
  let ev0 : List (ℚ × String) := [((10 : ℚ), "cobalt API 요청 중...")]
  match env.post with
  | CallResult.exc e => (ev0 ++ [((0 : ℚ), "오류: " ++ strTake 50 e)], none)
  | CallResult.ok resp =>
    if resp.statusCode ≠ 200 then
      (ev0 ++ [((0 : ℚ), "API 오류: " ++ toString resp.statusCode)], none)
    else if resp.jsonStatus = some "error" then
      (ev0 ++ [((0 : ℚ), "오류: " ++ strTake 50 (resp.jsonText.getD "unknown error"))], none)
    else if resp.jsonUrl.isNone then
      (ev0 ++ [((0 : ℚ), "다운로드 URL을 찾을 수 없습니다")], none)
    else
      let ext := if audioOnly then "mp3" else "mp4"
      let outputPath := env.tempDir ++ "/" ++ taskId ++ "." ++ ext
      match env.fileGet with
      | CallResult.exc e =>
        (ev0 ++ [((30 : ℚ), "파일 다운로드 중...")] ++ [((0 : ℚ), "오류: " ++ strTake 50 e)],
         none)
      | CallResult.ok fg =>
        (ev0 ++ [((30 : ℚ), "파일 다운로드 중...")]
             ++ chunkEvents fg.contentLength fg.chunks 0
             ++ [((100 : ℚ), "완료!")],
         if (env.fs outputPath).isSome then some outputPath else none)

/-! ## yt-dlp downloads (downloader.py 128-310) -/

/-- One yt-dlp progress-hook dictionary: the fields read at
downloader.py 164-176 / 240-252. -/
structure Hook where
  status : String
  totalBytes : Option Nat
  totalEst : Nat
  downloadedBytes : Nat
  speed : Nat

/-- Python `f"{q:.1f}"`, modelled by rational rounding. -/
def fmtFixed1 (q : ℚ) : String :=
  let n := round (q * 10)
  toString (n / 10) ++ "." ++ toString (n % 10)

def speedStr (speed : Nat) : String :=
  if speed = 0 then "계산 중..."
  else fmtFixed1 ((speed : ℚ) / 1024 / 1024) ++ " MB/s"

/-- `d.get('total_bytes') or d.get('total_bytes_estimate', 0)`. -/
def hookTotal (h : Hook) : Nat :=
  match h.totalBytes with
  | some t => if t = 0 then h.totalEst else t
  | none => h.totalEst

/-- The `progress_hook` of `download_video` (downloader.py 164-176). -/
def hookEvent (h : Hook) : Option (ℚ × String) :=
  if h.status = "downloading" then
    let total := hookTotal h
    if 0 < total then
      let percent : ℚ := ((h.downloadedBytes : ℚ) / (total : ℚ)) * 100
      some (percent, "다운로드 중... " ++ fmtFixed1 percent ++ "% (" ++ speedStr h.speed ++ ")")
    else none
  else if h.status = "finished" then some ((95 : ℚ), "처리 중...")
  else none

/-- The `progress_hook` of `download_audio` (downloader.py 240-252): the
transfer percent is compressed by 0.8 and `finished` maps to 85. -/
def audioHookEvent (h : Hook) : Option (ℚ × String) :=
  if h.status = "downloading" then
    let total := hookTotal h
    if 0 < total then
      let percent : ℚ := ((h.downloadedBytes : ℚ) / (total : ℚ)) * 100
      some (percent * (8 / 10),
            "다운로드 중... " ++ fmtFixed1 percent ++ "% (" ++ speedStr h.speed ++ ")")
    else none
  else if h.status = "finished" then some ((85 : ℚ), "MP3 변환 중...")
  else none

/-- Behaviour of one `yt_dlp.YoutubeDL` session in `download_video`: the hooks
that fired, and either the `prepare_filename` result or the raised exception. -/
structure AttemptEnv where
  hooks : List Hook
  result : Except String String

structure VideoEnv where
  attempt : Nat → AttemptEnv
  fs : String → Option Nat
  cobalt : CobaltEnv
  tempDir : String

/-- `os.path.splitext(s)[0]`: drop the final extension. -/
def splitExtBase (s : String) : String :=
  let cs := s.data.reverse
  let before := cs.dropWhile (fun c => !(c == '.'))
  match before with
  | [] => s
  | _ :: rest => String.mk rest.reverse

/-- `WebDownloader.download_video` (downloader.py 151-225).  YouTube URLs are
delegated to cobalt; otherwise one yt-dlp attempt per `_retry` value runs, and
on an exception `retryDecision` decides between recursing with the next format
and reporting the error. -/
def downloadVideo (env : VideoEnv) (url taskId : String) (retry : Nat) :
    List (ℚ × String) × Option String :=
  if is_youtube_url url then cobaltDownload env.cobalt taskId false
  else
    let a := env.attempt retry
    let evs := a.hooks.filterMap hookEvent
    match a.result with
    | Except.ok filename0 =>
      let filename :=
        if !(filename0.endsWith ".mp4") && (env.fs (splitExtBase filename0 ++ ".mp4")).isSome
        then splitExtBase filename0 ++ ".mp4" else filename0
      (evs ++ [((100 : ℚ), "완료!")],
       if (env.fs filename).isSome then some filename else none)
    | Except.error e =>
      match h : retryDecision e retry with
      | Decision.retry =>
        let rec2 := downloadVideo env url taskId (retry + 1)
        (evs ++ [((0 : ℚ), "다른 포맷으로 재시도 중...")] ++ rec2.1, rec2.2)
      | Decision.fail =>
        (evs ++ [((0 : ℚ), "오류: " ++ strTake 100 e)], none)
termination_by 3 - retry
decreasing_by
  unfold retryDecision at h
  split at h
  · split at h
    · omega
    · simp at h
  · simp at h

/-- Behaviour of one `yt_dlp.YoutubeDL` session in `download_audio`. -/
structure AudioAttemptEnv where
  hooks : List Hook
  result : Except String Unit

structure AudioEnv where
  attempt : Nat → AudioAttemptEnv
  fs : String → Option Nat
  dirFiles : List String
  cobalt : CobaltEnv
  tempDir : String

/-- `WebDownloader.download_audio` (downloader.py 227-310). -/
def downloadAudio (env : AudioEnv) (url taskId : String) (retry : Nat) :
    List (ℚ × String) × Option String :=
  if is_youtube_url url then cobaltDownload env.cobalt taskId true
  else
    let a := env.attempt retry
    let evs := a.hooks.filterMap audioHookEvent
    match a.result with
    | Except.ok _ =>
      let mp3 := env.tempDir ++ "/" ++ taskId ++ ".mp3"
      if (env.fs mp3).isSome then (evs ++ [((100 : ℚ), "완료!")], some mp3)
      else
        match env.dirFiles.find? (fun f => f.startsWith taskId && f.endsWith ".mp3") with
        | some f => (evs ++ [((100 : ℚ), "완료!")], some (env.tempDir ++ "/" ++ f))
        | none => (evs, none)
    | Except.error e =>
      match h : retryDecision e retry with
      | Decision.retry =>
        let rec2 := downloadAudio env url taskId (retry + 1)
        (evs ++ [((0 : ℚ), "다른 포맷으로 재시도 중...")] ++ rec2.1, rec2.2)
      | Decision.fail =>
        (evs ++ [((0 : ℚ), "오류: " ++ strTake 100 e)], none)
termination_by 3 - retry
decreasing_by
  unfold retryDecision at h
  split at h
  · split at h
    · omega
    · simp at h
  · simp at h

/-! ## Video info (downloader.py 128-149) -/

structure RawInfo where
  title : Option String
  duration : Option Nat
  thumbnail : Option String

structure VideoInfo where
  title : String
  duration : Nat
  thumbnail : String

/-- `WebDownloader.get_video_info`: an extraction exception yields `None`,
otherwise the three fields with their defaults. -/
def getVideoInfo (r : Except String RawInfo) : Option VideoInfo :=
  match r with
  | Except.error _ => none
  | Except.ok i =>
    some { title := i.title.getD "video", duration := i.duration.getD 0,
           thumbnail := i.thumbnail.getD "" }

/-! ## Task records and the runner trace (app.py 51-106)

A task dict (app.py 51-59) becomes `TaskRec`.  `run_download` mutates the dict one
field at a time; `Assign` is one such field assignment, `runAssigns` is the
exact assignment sequence the function performs for a given collaborator
behaviour, and `runTrace` lists the record state after every single assignment
— the states a concurrent reader (the SSE generator, `download_file`) could
observe.  The collaborator behaviour `RunEnv` carries the progress-callback
events delivered during the downloader call, the call's outcome
(`Except.error` models an exception propagating out of the call, handled by
app.py 104-106), the filesystem sampled by `os.path.exists` (app.py 87) and
the `get_video_info` result (app.py 89). -/

inductive Status
  | pending
  | downloading
  | completed
  | failed
deriving DecidableEq

structure TaskRec where
  status : Status
  progress : ℚ
  message : String
  url : String
  kind : String
  filepath : Option String
  filename : Option String
deriving DecidableEq

/-- The task dict created by `start_download` (app.py 51-59). -/
def initTask (url dtype : String) : TaskRec :=
  { status := Status.pending, progress := 0, message := "대기 중...",
    url := url, kind := dtype, filepath := none, filename := none }

/-- One assignment `tasks[task_id][field] = value`. -/
inductive Assign
  | status (s : Status)
  | progress (p : ℚ)
  | message (m : String)
  | filepath (v : Option String)
  | filename (v : Option String)

def applyA (t : TaskRec) : Assign → TaskRec
  | Assign.status s => { t with status := s }
  | Assign.progress p => { t with progress := p }
  | Assign.message m => { t with message := m }
  | Assign.filepath v => { t with filepath := v }
  | Assign.filename v => { t with filename := v }

/-- The record states after each successive assignment. -/
def runTrace (t : TaskRec) : List Assign → List TaskRec
  | [] => []
  | a :: as => applyA t a :: runTrace (applyA t a) as

/-- The record state after all assignments. -/
def applyAll (t : TaskRec) : List Assign → TaskRec
  | [] => t
  | a :: as => applyAll (applyA t a) as

/-- `progress_callback` (app.py 71-74): three assignments, in source order. -/
def cbAssigns (e : ℚ × String) : List Assign :=
  [Assign.progress e.1, Assign.message e.2, Assign.status Status.downloading]

def cbAssignsAll : List (ℚ × String) → List Assign
  | [] => []
  | e :: es => cbAssigns e ++ cbAssignsAll es

/-- Title sanitization of app.py 92-93: keep alphanumerics, space, hyphen,
underscore. -/
def allowedChar (c : Char) : Bool :=
  c.isAlphanum || decide (c = ' ') || decide (c = '-') || decide (c = '_')

/-- Python `str.strip()` on a character list. -/
def pyStripChars (l : List Char) : List Char :=
  ((l.dropWhile Char.isWhitespace).reverse.dropWhile Char.isWhitespace).reverse

/-- app.py 92-93: filter to the allowed characters, strip, truncate to 50. -/
def sanitizeTitle (title : String) : String :=
  let kept := title.data.filter allowedChar
  let stripped := pyStripChars kept
  String.mk (if stripped.length > 50 then stripped.take 50 else stripped)

/-- app.py 90: `info['title'] if info else 'download'`. -/
def titleFromInfo : Option VideoInfo → String
  | some i => i.title
  | none => "download"

/-- app.py 80-85: the extension chosen for the requested kind. -/
def extFor (dtype : String) : String := if dtype = "video" then "mp4" else "mp3"

/-- Collaborator behaviour observed by one `run_download` execution. -/
structure RunEnv where
  events : List (ℚ × String)
  outcome : Except String (Option String)
  fs : String → Option Nat
  info : Option VideoInfo

/-- The failure block of app.py 100-102. -/
def failAssigns : List Assign :=
  [Assign.status Status.failed, Assign.message "다운로드 실패"]

/-- The completion block of app.py 95-99, in source order: `status` first,
`filepath` and `filename` last. -/
def doneAssigns (fp title ext : String) : List Assign :=
  [Assign.status Status.completed, Assign.progress 100,
   Assign.message "다운로드 완료!", Assign.filepath (some fp),
   Assign.filename (some (sanitizeTitle title ++ "." ++ ext))]

/-- The assignment sequence performed by `run_download` (app.py 69-106). -/
def runAssigns (env : RunEnv) (dtype : String) : List Assign :=
  [Assign.status Status.downloading, Assign.message "다운로드 시작..."] ++
  match env.outcome with
  | Except.error e =>
    cbAssignsAll env.events ++
    [Assign.status Status.failed, Assign.message ("오류: " ++ strTake 100 e)]
  | Except.ok fpOpt =>
    cbAssignsAll env.events ++
    match fpOpt with
    | some fp =>
      if (env.fs fp).isSome then
        doneAssigns fp (titleFromInfo env.info) (extFor dtype)
      else failAssigns
    | none => failAssigns

/-- The observable record states of one `run_download` execution, in order. -/
def runDownload (env : RunEnv) (url dtype : String) : List TaskRec :=
  runTrace (initTask url dtype) (runAssigns env dtype)

/-- The record state when `run_download` returns. -/
def finalTask (env : RunEnv) (url dtype : String) : TaskRec :=
  applyAll (initTask url dtype) (runAssigns env dtype)

/-! ## Progress publisher (app.py 109-138)

The SSE generator polls the task store every 500 ms.  `getProgressGen` maps the
sequence of store lookups it sees (one `Option TaskRec` per poll instant; `none`
when the id is absent) to the sequence of yielded snapshots. -/

inductive Snap
  | notFound
  | state (status : Status) (progress : ℚ) (message : String) (downloadUrl : Option String)
deriving DecidableEq

/-- The data dict yielded for a present task (app.py 120-127): the retrieval
reference is attached only on a completed snapshot. -/
def snapOf (taskId : String) (t : TaskRec) : Snap :=
  if t.status = Status.completed then
    Snap.state t.status t.progress t.message (some ("/api/file/" ++ taskId))
  else Snap.state t.status t.progress t.message none

/-- The `generate` loop of `get_progress` (app.py 112-136). -/
def getProgressGen (taskId : String) : List (Option TaskRec) → List Snap
  | [] => []
  | none :: _ => [Snap.notFound]
  | some t :: rest =>
    if t.status = Status.completed then [snapOf taskId t]
    else if t.status = Status.failed then [snapOf taskId t]
    else snapOf taskId t :: getProgressGen taskId rest

/-- A snapshot that is neither terminal nor "not found". -/
def nonTerminalSnap : Snap → Bool
  | Snap.notFound => false
  | Snap.state st _ _ _ =>
    decide (st ≠ Status.completed) && decide (st ≠ Status.failed)

/-! ## File fetch and cleanup (app.py 141-176) -/

inductive FetchResult
  | taskNotFound
  | notReady
  | fileNotFound
  | sendFile (filepath : String) (filename : Option String)
deriving DecidableEq

/-- `download_file` (app.py 141-176): the HTTP result and whether a
`cleanup_later` thread was scheduled.  The function itself mutates neither the
task store nor the filesystem; deletion happens only inside `cleanup_later`
after `time.sleep(60)`. -/
def downloadFile (store : Option TaskRec) (fs : String → Option Nat) :
    FetchResult × Bool :=
  match store with
  | none => (FetchResult.taskNotFound, false)
  | some task =>
    if task.status ≠ Status.completed ∨ task.filepath = none then
      (FetchResult.notReady, false)
    else
      match task.filepath with
      | none => (FetchResult.notReady, false)
      | some fp =>
        if (fs fp).isNone then (FetchResult.fileNotFound, false)
        else (FetchResult.sendFile fp task.filename, true)

/-- The store and filesystem immediately after `download_file` returns: both
unchanged (app.py 157-176 schedule the deletion but perform none). -/
def fetchStateAfter (store : Option TaskRec) (fs : String → Option Nat) :
    Option TaskRec × (String → Option Nat) := (store, fs)

/-- `time.sleep(60)` in `cleanup_later` (app.py 167). -/
def graceDelaySeconds : Nat := 60

/-- The effect of `cleanup_later` once the grace delay elapsed (app.py 165-170
with `downloader.cleanup`, downloader.py 312-318): the file is removed and the
task entry deleted. -/
def cleanupRun (fp : String) (fs : String → Option Nat) :
    Option TaskRec × (String → Option Nat) :=
  (none, fun p => if p = fp then none else fs p)

/-! ## Status-step machinery for the state-machine claim -/

/-- The allowed single-step status relation: stay in place, or move along
pending → downloading → (completed | failed). -/
def okStatusStep : Status → Status → Bool
  | Status.pending, Status.pending => true
  | Status.pending, Status.downloading => true
  | Status.downloading, Status.downloading => true
  | Status.downloading, Status.completed => true
  | Status.downloading, Status.failed => true
  | Status.completed, Status.completed => true
  | Status.failed, Status.failed => true
  | _, _ => false

/-- The status of the record after one assignment, as a function of the prior
status alone. -/
def statusAfter (st : Status) : Assign → Status
  | Assign.status s => s
  | Assign.progress _ => st
  | Assign.message _ => st
  | Assign.filepath _ => st
  | Assign.filename _ => st

/-- Every assignment in the list moves the status along `okStatusStep`. -/
def assignsOK : Status → List Assign → Bool
  | _, [] => true
  | st, a :: as => okStatusStep st (statusAfter st a) && assignsOK (statusAfter st a) as

/-! ## Concrete environments used by the closed witness/counterexample theorems -/

/-- A cobalt exchange in which everything succeeds and the written file is
observed with size `sz`. -/
def cobaltOkEnv (sz : Nat) : CobaltEnv :=
  { post := CallResult.ok { statusCode := 200, jsonStatus := some "stream",
                            jsonText := none, jsonUrl := some "https://dl.example/x" },
    fileGet := CallResult.ok { contentLength := 4, chunks := [4] },
    fs := fun p => if p = "tmp/t1.mp4" then some sz else none,
    tempDir := "tmp" }

/-- A cobalt exchange whose API request comes back with HTTP status 500. -/
def cobaltErrEnv : CobaltEnv :=
  { post := CallResult.ok { statusCode := 500, jsonStatus := none,
                            jsonText := none, jsonUrl := none },
    fileGet := CallResult.exc "unreached",
    fs := fun _ => none,
    tempDir := "tmp" }

/-- `run_download` driven by a fully successful cobalt download of a file of
size `sz`, with extracted title `title`. -/
def runEnvCobaltOk (sz : Nat) (title : String) : RunEnv :=
  { events := (cobaltDownload (cobaltOkEnv sz) "t1" false).1,
    outcome := Except.ok (cobaltDownload (cobaltOkEnv sz) "t1" false).2,
    fs := fun p => if p = "tmp/t1.mp4" then some sz else none,
    info := getVideoInfo (Except.ok { title := some title, duration := some 3,
                                      thumbnail := none }) }

/-- `run_download` driven by the failing cobalt exchange. -/
def runEnvCobaltErr : RunEnv :=
  { events := (cobaltDownload cobaltErrEnv "t1" false).1,
    outcome := Except.ok (cobaltDownload cobaltErrEnv "t1" false).2,
    fs := fun _ => none,
    info := none }

/-- `run_download` whose downloader call raises (app.py 104-106). -/
def runEnvRaise : RunEnv :=
  { events := [], outcome := Except.error "boom", fs := fun _ => none, info := none }

/-- A completed task record holding a transferable file, as `download_file`
finds it. -/
def taskDone : TaskRec :=
  { status := Status.completed, progress := 100, message := "다운로드 완료!",
    url := "u", kind := "video", filepath := some "tmp/t1.mp4",
    filename := some "a.mp4" }

/-- The filesystem holding that task's file. -/
def fsDone : String → Option Nat :=
  fun p => if p = "tmp/t1.mp4" then some 4 else none

/-! # Theorems -/

/-! ## Generic trace lemmas -/

theorem applyA_status (t : TaskRec) (a : Assign) :
    (applyA t a).status = statusAfter t.status a := by
  cases a <;> rfl

theorem chain_of_assignsOK :
    ∀ (l : List Assign) (t : TaskRec), assignsOK t.status l = true →
      List.Chain' (fun a b => okStatusStep a.status b.status = true) (t :: runTrace t l) := by
  intro l
  induction l with
  | nil =>
    intro t _
    simp [runTrace]
  | cons a as ih =>
    intro t h
    simp only [assignsOK, Bool.and_eq_true] at h
    rw [runTrace]
    refine List.chain'_cons.mpr ⟨?_, ?_⟩
    · rw [applyA_status]
      exact h.1
    · exact ih (applyA t a) (by rw [applyA_status]; exact h.2)

theorem assignsOK_cb (events : List (ℚ × String)) (tail : List Assign)
    (h : assignsOK Status.downloading tail = true) :
    assignsOK Status.downloading (cbAssignsAll events ++ tail) = true := by
  induction events with
  | nil => simpa [cbAssignsAll]
  | cons e es ih =>
    simp only [cbAssignsAll, cbAssigns, List.cons_append, List.nil_append, List.append_assoc]
    simpa [assignsOK, statusAfter, okStatusStep] using ih

theorem assignsOK_done (fp title ext : String) :
    assignsOK Status.downloading (doneAssigns fp title ext) = true := by
  simp [doneAssigns, assignsOK, statusAfter, okStatusStep]

theorem assignsOK_fail : assignsOK Status.downloading failAssigns = true := by
  simp [failAssigns, assignsOK, statusAfter, okStatusStep]

theorem runAssigns_ok (env : RunEnv) (dtype : String) :
    assignsOK Status.pending (runAssigns env dtype) = true := by
  have hpre : ∀ X : List Assign, assignsOK Status.downloading X = true →
      assignsOK Status.pending
        ([Assign.status Status.downloading, Assign.message "다운로드 시작..."] ++ X) = true := by
    intro X hX
    simp [assignsOK, statusAfter, okStatusStep, hX]
  unfold runAssigns
  cases hout : env.outcome with
  | error e =>
    exact hpre _ (assignsOK_cb env.events _ (by simp [assignsOK, statusAfter, okStatusStep]))
  | ok fpOpt =>
    cases fpOpt with
    | none => exact hpre _ (assignsOK_cb env.events _ assignsOK_fail)
    | some fp =>
      by_cases hfs : (env.fs fp).isSome = true
      · exact hpre _ (assignsOK_cb env.events _
          (by show assignsOK Status.downloading
                (if (env.fs fp).isSome = true
                 then doneAssigns fp (titleFromInfo env.info) (extFor dtype)
                 else failAssigns) = true
              rw [if_pos hfs]; exact assignsOK_done _ _ _))
      · exact hpre _ (assignsOK_cb env.events _
          (by show assignsOK Status.downloading
                (if (env.fs fp).isSome = true
                 then doneAssigns fp (titleFromInfo env.info) (extFor dtype)
                 else failAssigns) = true
              rw [if_neg hfs]; exact assignsOK_fail))

/-- Claim C1: along one `run_download` execution (including every
`progress_callback` mutation), the task status moves only along
pending → downloading → (completed | failed); in particular once a terminal
status is reached no later observable state carries any other status, and
reads (`get_progress`, `download_file`) never mutate the record.  The list
`initTask … :: runDownload …` is the full sequence of observable record
states, and every adjacent pair is related by `okStatusStep`. -/
theorem run_download_state_machine (env : RunEnv) (url dtype : String) :
    List.Chain' (fun a b => okStatusStep a.status b.status = true)
      (initTask url dtype :: runDownload env url dtype) := by
  have h := runAssigns_ok env dtype
  exact chain_of_assignsOK _ _ (by
    show assignsOK (initTask url dtype).status (runAssigns env dtype) = true
    exact h)

theorem applyAll_append (l1 l2 : List Assign) :
    ∀ t, applyAll t (l1 ++ l2) = applyAll (applyAll t l1) l2 := by
  induction l1 with
  | nil => intro t; rfl
  | cons a as ih =>
    intro t
    simp only [List.cons_append, applyAll]
    exact ih _

theorem runTrace_append (l1 l2 : List Assign) :
    ∀ t, runTrace t (l1 ++ l2) = runTrace t l1 ++ runTrace (applyAll t l1) l2 := by
  induction l1 with
  | nil => intro t; rfl
  | cons a as ih =>
    intro t
    simp only [List.cons_append, runTrace, applyAll, List.append_eq]
    rw [ih]

theorem applyAll_cb_filepath (events : List (ℚ × String)) :
    ∀ t : TaskRec, (applyAll t (cbAssignsAll events)).filepath = t.filepath := by
  induction events with
  | nil => intro t; rfl
  | cons e es ih =>
    intro t
    simp only [cbAssignsAll, cbAssigns, List.cons_append, List.nil_append, applyAll]
    exact ih _

theorem runTrace_cb_filepath (events : List (ℚ × String)) :
    ∀ t : TaskRec, ∀ u ∈ runTrace t (cbAssignsAll events), u.filepath = t.filepath := by
  induction events with
  | nil =>
    intro t u hu
    simp [cbAssignsAll, runTrace] at hu
  | cons e es ih =>
    intro t u hu
    simp only [cbAssignsAll, cbAssigns, List.cons_append, List.nil_append, runTrace,
      List.mem_cons, List.append_eq] at hu
    rcases hu with h | h | h | h
    · subst h; rfl
    · subst h; rfl
    · subst h; rfl
    · have h4 := ih _ u h
      exact h4

/-! ## `runAssigns` branch equations and `finalTask` characterizations -/

theorem runAssigns_error (env : RunEnv) (dtype : String) (e : String)
    (h : env.outcome = Except.error e) :
    runAssigns env dtype =
      [Assign.status Status.downloading, Assign.message "다운로드 시작..."] ++
      (cbAssignsAll env.events ++
       [Assign.status Status.failed, Assign.message ("오류: " ++ strTake 100 e)]) := by
  unfold runAssigns
  rw [h]

theorem runAssigns_ok_some_true (env : RunEnv) (dtype : String) (fp : String)
    (h : env.outcome = Except.ok (some fp)) (hfs : (env.fs fp).isSome = true) :
    runAssigns env dtype =
      [Assign.status Status.downloading, Assign.message "다운로드 시작..."] ++
      (cbAssignsAll env.events ++ doneAssigns fp (titleFromInfo env.info) (extFor dtype)) := by
  unfold runAssigns
  rw [h]
  simp [hfs]

theorem runAssigns_ok_some_false (env : RunEnv) (dtype : String) (fp : String)
    (h : env.outcome = Except.ok (some fp)) (hfs : (env.fs fp).isSome = false) :
    runAssigns env dtype =
      [Assign.status Status.downloading, Assign.message "다운로드 시작..."] ++
      (cbAssignsAll env.events ++ failAssigns) := by
  unfold runAssigns
  rw [h]
  simp [hfs]

theorem runAssigns_ok_none (env : RunEnv) (dtype : String)
    (h : env.outcome = Except.ok none) :
    runAssigns env dtype =
      [Assign.status Status.downloading, Assign.message "다운로드 시작..."] ++
      (cbAssignsAll env.events ++ failAssigns) := by
  unfold runAssigns
  rw [h]

theorem finalTask_error (env : RunEnv) (url dtype e : String)
    (h : env.outcome = Except.error e) :
    (finalTask env url dtype).status = Status.failed ∧
    (finalTask env url dtype).message = "오류: " ++ strTake 100 e ∧
    (finalTask env url dtype).filepath = none := by
  unfold finalTask
  rw [runAssigns_error env dtype e h, applyAll_append, applyAll_append]
  refine ⟨rfl, rfl, ?_⟩
  exact applyAll_cb_filepath env.events _

theorem finalTask_done (env : RunEnv) (url dtype fp : String)
    (h : env.outcome = Except.ok (some fp)) (hfs : (env.fs fp).isSome = true) :
    (finalTask env url dtype).status = Status.completed ∧
    (finalTask env url dtype).progress = 100 ∧
    (finalTask env url dtype).filepath = some fp ∧
    (finalTask env url dtype).filename =
      some (sanitizeTitle (titleFromInfo env.info) ++ "." ++ extFor dtype) := by
  unfold finalTask
  rw [runAssigns_ok_some_true env dtype fp h hfs, applyAll_append, applyAll_append]
  exact ⟨rfl, rfl, rfl, rfl⟩

theorem finalTask_fail_of_assigns (env : RunEnv) (url dtype : String)
    (h : runAssigns env dtype =
      [Assign.status Status.downloading, Assign.message "다운로드 시작..."] ++
      (cbAssignsAll env.events ++ failAssigns)) :
    (finalTask env url dtype).status = Status.failed ∧
    (finalTask env url dtype).filepath = none := by
  unfold finalTask
  rw [h, applyAll_append, applyAll_append]
  refine ⟨rfl, ?_⟩
  exact applyAll_cb_filepath env.events _

theorem runTrace_done_status (t : TaskRec) (fp title ext : String) :
    ∀ u ∈ runTrace t (doneAssigns fp title ext), u.status = Status.completed := by
  intro u hu
  simp only [doneAssigns, runTrace, List.mem_cons, List.not_mem_nil, or_false] at hu
  rcases hu with h | h | h | h | h <;> subst h <;> rfl

theorem runTrace_fail_filepath (t : TaskRec) :
    ∀ u ∈ runTrace t failAssigns, u.filepath = t.filepath := by
  intro u hu
  simp only [failAssigns, runTrace, List.mem_cons, List.not_mem_nil, or_false] at hu
  rcases hu with h | h <;> subst h <;> rfl

theorem runTrace_start_filepath (t : TaskRec) (s : Status) (m : String) :
    ∀ u ∈ runTrace t [Assign.status s, Assign.message m], u.filepath = t.filepath := by
  intro u hu
  simp only [runTrace, List.mem_cons, List.not_mem_nil, or_false] at hu
  rcases hu with h | h <;> subst h <;> rfl

/-- Every observable record state of one `run_download` execution has either no
filepath or a completed status. -/
theorem trace_filepath_none_or_completed (env : RunEnv) (url dtype : String) :
    ∀ u ∈ initTask url dtype :: runDownload env url dtype,
      u.filepath = none ∨ u.status = Status.completed := by
  have hsplit : ∀ (tail : List Assign), runAssigns env dtype =
      [Assign.status Status.downloading, Assign.message "다운로드 시작..."] ++
        (cbAssignsAll env.events ++ tail) →
      (∀ u ∈ runTrace (applyAll (applyAll (initTask url dtype)
          [Assign.status Status.downloading, Assign.message "다운로드 시작..."])
          (cbAssignsAll env.events)) tail,
        u.filepath = none ∨ u.status = Status.completed) →
      ∀ u ∈ initTask url dtype :: runDownload env url dtype,
        u.filepath = none ∨ u.status = Status.completed := by
    intro tail heq htail u hu
    rcases List.mem_cons.mp hu with h0 | h0
    · subst h0; left; rfl
    · unfold runDownload at h0
      rw [heq, runTrace_append, runTrace_append] at h0
      rcases List.mem_append.mp h0 with h1 | h1
      · left
        exact runTrace_start_filepath _ _ _ u h1
      · rcases List.mem_append.mp h1 with h2 | h2
        · left
          have h3 := runTrace_cb_filepath env.events _ u h2
          rw [h3]
          rfl
        · exact htail u h2
  cases hout : env.outcome with
  | error e =>
    refine hsplit _ (runAssigns_error env dtype e hout) ?_
    intro u hu
    left
    have h3 := runTrace_start_filepath _ Status.failed ("오류: " ++ strTake 100 e) u hu
    rw [h3, applyAll_cb_filepath]
    rfl
  | ok fpOpt =>
    cases fpOpt with
    | none =>
      refine hsplit _ (runAssigns_ok_none env dtype hout) ?_
      intro u hu
      left
      have h3 := runTrace_start_filepath _ Status.failed "다운로드 실패" u hu
      rw [h3, applyAll_cb_filepath]
      rfl
    | some fp =>
      by_cases hfs : (env.fs fp).isSome = true
      · refine hsplit _ (runAssigns_ok_some_true env dtype fp hout hfs) ?_
        intro u hu
        right
        exact runTrace_done_status _ _ _ _ u hu
      · have hfs2 : (env.fs fp).isSome = false := by
          revert hfs
          cases (env.fs fp).isSome <;> simp
        refine hsplit _ (runAssigns_ok_some_false env dtype fp hout hfs2) ?_
        intro u hu
        left
        have h3 := runTrace_start_filepath _ Status.failed "다운로드 실패" u hu
        rw [h3, applyAll_cb_filepath]
        rfl

/-- Claim C2 (amended): at every observable point of a task's lifetime a set
`filepath` implies a completed status (so a pending, downloading or failed
record always has `filepath = None`), and in the final record state `filepath`
is set if and only if the status is completed.  The original claim's
biconditional at every intermediate point fails — app.py 95-98 assigns
`status = 'completed'` before `filepath` — see the counterexample. -/
theorem filepath_completed_invariant (env : RunEnv) (url dtype : String) :
    (∀ u ∈ initTask url dtype :: runDownload env url dtype,
        (u.filepath.isSome = true → u.status = Status.completed) ∧
        (u.status = Status.failed → u.filepath = none)) ∧
    ((finalTask env url dtype).status = Status.completed ↔
      (finalTask env url dtype).filepath.isSome = true) := by
  constructor
  · intro u hu
    rcases trace_filepath_none_or_completed env url dtype u hu with h | h
    · constructor
      · intro hs
        rw [h] at hs
        simp at hs
      · intro _
        exact h
    · constructor
      · intro _
        exact h
      · intro hf
        rw [h] at hf
        cases hf
  · cases hout : env.outcome with
    | error e =>
      obtain ⟨h1, _, h3⟩ := finalTask_error env url dtype e hout
      rw [h1, h3]
      simp
    | ok fpOpt =>
      cases fpOpt with
      | none =>
        obtain ⟨h1, h3⟩ := finalTask_fail_of_assigns env url dtype
          (runAssigns_ok_none env dtype hout)
        rw [h1, h3]
        simp
      | some fp =>
        by_cases hfs : (env.fs fp).isSome = true
        · obtain ⟨h1, _, h3, _⟩ := finalTask_done env url dtype fp hout hfs
          rw [h1, h3]
          simp
        · have hfs2 : (env.fs fp).isSome = false := by
            revert hfs
            cases (env.fs fp).isSome <;> simp
          obtain ⟨h1, h3⟩ := finalTask_fail_of_assigns env url dtype
            (runAssigns_ok_some_false env dtype fp hout hfs2)
          rw [h1, h3]
          simp

/-- Claim C2 witness: for a concrete successful run, the final record's set
filepath forces (via the invariant theorem) a completed status. -/
theorem filepath_completed_invariant_witness :
    (finalTask (runEnvCobaltOk 4 "Song") "u" "video").status = Status.completed :=
  ((filepath_completed_invariant (runEnvCobaltOk 4 "Song") "u" "video").1
    (finalTask (runEnvCobaltOk 4 "Song") "u" "video") (by decide)).1 (by decide)

/-- Claim C2 counterexample: the claimed biconditional "filepath is non-empty
iff status is Completed at every point of the lifetime" is false: app.py 95
assigns `status = 'completed'` before app.py 98 assigns `filepath`, so the
trace of a successful run contains an observable record state with
`status = completed` and `filepath = None`. -/
theorem filepath_iff_completed_counterexample :
    ((initTask "u" "video" :: runDownload (runEnvCobaltOk 4 "Song") "u" "video").any
      (fun t => decide (t.status = Status.completed) && t.filepath.isNone)) = true := by
  decide

/-- Claim C3 (amended): the only transient signatures are access-denied ones —
an error whose text contains `'403'` or `'Forbidden'` (downloader.py 217, 302).
For those, the decision is Retry while the attempt count is below the maximum
of 2 consumed retries (3 total attempts) and Fail at the maximum; every other
error — including rate-limit, authentication and bot-detection signatures —
fails immediately regardless of the attempt count. -/
theorem retry_policy_decision (e : String) (n : Nat) :
    ((strContains e "403" = true ∨ strContains e "Forbidden" = true) →
      (n < 2 → retryDecision e n = Decision.retry) ∧
      (2 ≤ n → retryDecision e n = Decision.fail)) ∧
    ((strContains e "403" = false ∧ strContains e "Forbidden" = false) →
      retryDecision e n = Decision.fail) := by
  unfold retryDecision
  constructor
  · intro htr
    have hcond : (strContains e "403" || strContains e "Forbidden") = true := by
      rcases htr with h | h <;> simp [h]
    constructor
    · intro hn
      simp [hcond, hn]
    · intro hn
      have hn2 : ¬ n < 2 := by omega
      simp [hcond, hn2]
  · intro hno
    simp [hno.1, hno.2]

/-- Claim C3 witness: the 403 signature retries below the maximum and fails at
it; a terminal error fails at once. -/
theorem retry_policy_decision_witness :
    retryDecision "HTTP Error 403: Forbidden" 0 = Decision.retry ∧
    retryDecision "HTTP Error 403: Forbidden" 2 = Decision.fail ∧
    retryDecision "Video unavailable" 1 = Decision.fail :=
  ⟨((retry_policy_decision "HTTP Error 403: Forbidden" 0).1 (Or.inl (by decide))).1 (by omega),
   ((retry_policy_decision "HTTP Error 403: Forbidden" 2).1 (Or.inl (by decide))).2 (by omega),
   (retry_policy_decision "Video unavailable" 1).2 ⟨by decide, by decide⟩⟩

/-- Claim C3 counterexample: a rate-limited signature — in the claimed
transient set — at attempt 0, strictly below any configured maximum, is NOT
retried: downloader.py 217/302 retry only on '403'/'Forbidden'. -/
theorem retry_policy_counterexample :
    retryDecision "HTTP Error 429: Too Many Requests" 0 = Decision.fail := by decide

/-- Claim C4 (amended): a task transitions to Completed only when
`os.path.exists` (app.py 87) reported the produced file as existing; whenever
the final state is Completed its filepath is set and that path existed on the
sampled filesystem.  File EMPTINESS is not checked (neither app.py 87 nor
downloader.py 111 reads the size) — see the counterexample. -/
theorem completed_implies_file_exists (env : RunEnv) (url dtype : String)
    (h : (finalTask env url dtype).status = Status.completed) :
    ∃ fp, (finalTask env url dtype).filepath = some fp ∧ (env.fs fp).isSome = true := by
  cases hout : env.outcome with
  | error e =>
    obtain ⟨h1, _, _⟩ := finalTask_error env url dtype e hout
    rw [h1] at h
    exact Status.noConfusion h
  | ok fpOpt =>
    cases fpOpt with
    | none =>
      obtain ⟨h1, _⟩ := finalTask_fail_of_assigns env url dtype
        (runAssigns_ok_none env dtype hout)
      rw [h1] at h
      exact Status.noConfusion h
    | some fp =>
      by_cases hfs : (env.fs fp).isSome = true
      · obtain ⟨_, _, h3, _⟩ := finalTask_done env url dtype fp hout hfs
        exact ⟨fp, h3, hfs⟩
      · have hfs2 : (env.fs fp).isSome = false := by
          revert hfs
          cases (env.fs fp).isSome <;> simp
        obtain ⟨h1, _⟩ := finalTask_fail_of_assigns env url dtype
          (runAssigns_ok_some_false env dtype fp hout hfs2)
        rw [h1] at h
        exact Status.noConfusion h

/-- Claim C4 witness: a concrete completed run, with the existing-file fact
extracted through the theorem. -/
theorem completed_implies_file_exists_witness :
    ∃ fp, (finalTask (runEnvCobaltOk 7 "Song") "u" "video").filepath = some fp ∧
      ((runEnvCobaltOk 7 "Song").fs fp).isSome = true :=
  completed_implies_file_exists (runEnvCobaltOk 7 "Song") "u" "video" (by decide)

/-- Claim C4 counterexample: with a provider-reported success and an existing
but empty (size-0) file, the task still completes — refuting "for every
Completed task the result path refers to an existing, NON-EMPTY file". -/
theorem completed_empty_file_counterexample :
    (finalTask (runEnvCobaltOk 0 "Song") "u" "video").status = Status.completed ∧
    (finalTask (runEnvCobaltOk 0 "Song") "u" "video").filepath = some "tmp/t1.mp4" ∧
    (runEnvCobaltOk 0 "Song").fs "tmp/t1.mp4" = some 0 := by decide

/-! ## Chunk-event monotonicity (downloader.py 99-106) -/

theorem pctMono (total d1 d2 : Nat) (h : d1 ≤ d2) :
    30 + ((d1 : ℚ) / (total : ℚ)) * 65 ≤ 30 + ((d2 : ℚ) / (total : ℚ)) * 65 := by
  rcases Nat.eq_zero_or_pos total with h0 | h0
  · subst h0
    simp
  · have hT : (0 : ℚ) < (total : ℚ) := by exact_mod_cast h0
    have hdc : ((d1 : ℚ)) ≤ ((d2 : ℚ)) := by exact_mod_cast h
    have h2 := (div_le_div_iff_of_pos_right hT).mpr hdc
    nlinarith

theorem chunkEvents_lower (total : Nat) :
    ∀ (chunks : List Nat) (d0 : Nat) (q : ℚ),
      q ∈ (chunkEvents total chunks d0).map Prod.fst →
      30 + ((d0 : ℚ) / (total : ℚ)) * 65 ≤ q := by
  intro chunks
  induction chunks with
  | nil =>
    intro d0 q hq
    simp [chunkEvents] at hq
  | cons c cs ih =>
    intro d0 q hq
    rw [chunkEvents] at hq
    by_cases hc : c = 0
    · rw [if_pos hc] at hq
      exact ih d0 q hq
    · rw [if_neg hc] at hq
      by_cases ht : 0 < total
      · rw [if_pos ht] at hq
        simp only [List.map_cons, List.mem_cons] at hq
        rcases hq with h | h
        · rw [h]
          exact pctMono total d0 (d0 + c) (Nat.le_add_right d0 c)
        · exact le_trans (pctMono total d0 (d0 + c) (Nat.le_add_right d0 c)) (ih (d0 + c) q h)
      · rw [if_neg ht] at hq
        exact le_trans (pctMono total d0 (d0 + c) (Nat.le_add_right d0 c)) (ih (d0 + c) q hq)

theorem chunkEvents_upper (total : Nat) :
    ∀ (chunks : List Nat) (d0 : Nat), d0 + chunks.sum ≤ total →
      ∀ q ∈ (chunkEvents total chunks d0).map Prod.fst, q ≤ 100 := by
  intro chunks
  induction chunks with
  | nil =>
    intro d0 _ q hq
    simp [chunkEvents] at hq
  | cons c cs ih =>
    intro d0 hsum q hq
    rw [List.sum_cons] at hsum
    have hsum2 : (d0 + c) + cs.sum ≤ total := by omega
    rw [chunkEvents] at hq
    by_cases hc : c = 0
    · rw [if_pos hc] at hq
      exact ih d0 (by omega) q hq
    · rw [if_neg hc] at hq
      by_cases ht : 0 < total
      · rw [if_pos ht] at hq
        simp only [List.map_cons, List.mem_cons] at hq
        rcases hq with h | h
        · rw [h]
          have hT : (0 : ℚ) < (total : ℚ) := by exact_mod_cast ht
          have hle : ((d0 + c : Nat) : ℚ) ≤ (total : ℚ) := by
            exact_mod_cast (by omega : d0 + c ≤ total)
          have h2 := (div_le_one hT).mpr hle
          nlinarith
        · exact ih (d0 + c) hsum2 q h
      · rw [if_neg ht] at hq
        exact ih (d0 + c) hsum2 q hq

theorem chunkEvents_chain (total : Nat) :
    ∀ (chunks : List Nat) (d0 : Nat),
      List.Chain' (fun a b : ℚ => a ≤ b) ((chunkEvents total chunks d0).map Prod.fst) := by
  intro chunks
  induction chunks with
  | nil =>
    intro d0
    simp [chunkEvents]
  | cons c cs ih =>
    intro d0
    rw [chunkEvents]
    by_cases hc : c = 0
    · rw [if_pos hc]
      exact ih d0
    · rw [if_neg hc]
      by_cases ht : 0 < total
      · rw [if_pos ht]
        simp only [List.map_cons]
        refine List.chain'_cons'.mpr ⟨?_, ih (d0 + c)⟩
        intro y hy
        have hmem : y ∈ (chunkEvents total cs (d0 + c)).map Prod.fst := by
          cases hl : (chunkEvents total cs (d0 + c)).map Prod.fst with
          | nil =>
            rw [hl] at hy
            simp at hy
          | cons a l =>
            rw [hl] at hy
            simp only [List.head?_cons, Option.mem_def, Option.some.injEq] at hy
            rw [← hy]
            exact List.mem_cons_self a l
        exact chunkEvents_lower total cs (d0 + c) y hmem
      · rw [if_neg ht]
        exact ih (d0 + c)

/-- The event list of an error-free cobalt download, in closed form. -/
theorem cobaltDownload_success_events (env : CobaltEnv) (tid : String)
    (audioOnly : Bool) (resp : PostResp) (fg : FileGet)
    (hpost : env.post = CallResult.ok resp)
    (hcode : resp.statusCode = 200)
    (hjson : resp.jsonStatus ≠ some "error")
    (hurl : resp.jsonUrl.isNone = false)
    (hget : env.fileGet = CallResult.ok fg) :
    (cobaltDownload env tid audioOnly).1 =
      ((10 : ℚ), "cobalt API 요청 중...") :: ((30 : ℚ), "파일 다운로드 중...") ::
      (chunkEvents fg.contentLength fg.chunks 0 ++ [((100 : ℚ), "완료!")]) := by
  unfold cobaltDownload
  simp [hpost, hget, hcode, hjson, hurl]

/-- Claim C5 (amended): the observer-visible progress sequence is NOT globally
non-decreasing — an error report or a retry resets it to 0 (counterexample);
what does hold is attempt-local monotonicity: on an error-free cobalt download
whose received bytes do not exceed the announced content length, the emitted
progress sequence 10, 30, …, 100 is non-decreasing. -/
theorem cobalt_progress_monotone (env : CobaltEnv) (tid : String) (audioOnly : Bool)
    (resp : PostResp) (fg : FileGet)
    (hpost : env.post = CallResult.ok resp)
    (hcode : resp.statusCode = 200)
    (hjson : resp.jsonStatus ≠ some "error")
    (hurl : resp.jsonUrl.isNone = false)
    (hget : env.fileGet = CallResult.ok fg)
    (hsum : fg.chunks.sum ≤ fg.contentLength) :
    List.Chain' (fun a b : ℚ => a ≤ b)
      ((cobaltDownload env tid audioOnly).1.map Prod.fst) := by
  rw [cobaltDownload_success_events env tid audioOnly resp fg hpost hcode hjson hurl hget]
  simp only [List.map_cons]
  refine List.chain'_cons.mpr ⟨by norm_num, ?_⟩
  refine List.chain'_cons'.mpr ⟨?_, ?_⟩
  · intro y hy
    rw [List.map_append] at hy
    cases hl : (chunkEvents fg.contentLength fg.chunks 0).map Prod.fst with
    | nil =>
      rw [hl] at hy
      simp at hy
      rw [← hy]
      norm_num
    | cons a l =>
      rw [hl] at hy
      simp only [List.cons_append, List.head?_cons, Option.mem_def, Option.some.injEq] at hy
      have hmem : y ∈ (chunkEvents fg.contentLength fg.chunks 0).map Prod.fst := by
        rw [hl, ← hy]
        exact List.mem_cons_self a _
      have hlow := chunkEvents_lower fg.contentLength fg.chunks 0 y hmem
      have : ((0 : Nat) : ℚ) / ((fg.contentLength : Nat) : ℚ) * 65 = 0 := by
        simp
      calc (30 : ℚ) = 30 + ((0 : Nat) : ℚ) / ((fg.contentLength : Nat) : ℚ) * 65 := by
              rw [this]; ring
        _ ≤ y := hlow
  · rw [List.map_append]
    refine List.chain'_append.mpr ⟨chunkEvents_chain _ _ _, by simp, ?_⟩
    intro x hx y hy
    simp only [List.map_cons, List.map_nil, List.head?_cons, Option.mem_def,
      Option.some.injEq] at hy
    rw [← hy]
    have hmem : x ∈ (chunkEvents fg.contentLength fg.chunks 0).map Prod.fst := by
      obtain ⟨hne, hxeq⟩ := List.mem_getLast?_eq_getLast hx
      rw [hxeq]
      exact List.getLast_mem hne
    exact chunkEvents_upper fg.contentLength fg.chunks 0 (by omega) x hmem

/-- Claim C5 witness: a concrete error-free cobalt download (content length 4,
one 4-byte chunk) has the non-decreasing progress sequence 10, 30, 95, 100. -/
theorem cobalt_progress_monotone_witness :
    List.Chain' (fun a b : ℚ => a ≤ b)
      ((cobaltDownload (cobaltOkEnv 4) "t1" false).1.map Prod.fst) :=
  cobalt_progress_monotone (cobaltOkEnv 4) "t1" false
    { statusCode := 200, jsonStatus := some "stream", jsonText := none,
      jsonUrl := some "https://dl.example/x" }
    { contentLength := 4, chunks := [4] }
    rfl rfl (by decide) rfl rfl (by decide)

/-- Claim C5 counterexample: the observer-visible progress sequence of a task is
NOT non-decreasing over the whole lifetime: a cobalt API failure (HTTP 500)
reports 10 and then resets to 0 (downloader.py 68-70 via app.py 71-74), so a
later observed value falls below an earlier one. -/
theorem progress_reset_counterexample :
    ¬ List.Chain' (fun a b : ℚ => a ≤ b)
      ((initTask "u" "video" :: runDownload runEnvCobaltErr "u" "video").map
        TaskRec.progress) := by
  intro hchain
  have heq : ((initTask "u" "video" :: runDownload runEnvCobaltErr "u" "video").map
      TaskRec.progress) = [0, 0, 0, 10, 10, 10, 0, 0, 0, 0, 0] := by decide
  rw [heq] at hchain
  norm_num [List.chain'_cons] at hchain

/-! ## Filename sanitization lemmas (app.py 88-99) -/

theorem mem_dropWhileCL {p : Char → Bool} :
    ∀ (l : List Char) (c : Char), c ∈ l.dropWhile p → c ∈ l := by
  intro l
  induction l with
  | nil =>
    intro c hc
    simp [List.dropWhile] at hc
  | cons a as ih =>
    intro c hc
    rw [List.dropWhile_cons] at hc
    by_cases hp : p a = true
    · rw [if_pos hp] at hc
      exact List.mem_cons_of_mem a (ih c hc)
    · rw [if_neg hp] at hc
      exact hc

theorem mem_pyStrip (l : List Char) (c : Char) (h : c ∈ pyStripChars l) : c ∈ l := by
  unfold pyStripChars at h
  rw [List.mem_reverse] at h
  have h2 := mem_dropWhileCL _ c h
  rw [List.mem_reverse] at h2
  exact mem_dropWhileCL _ c h2

theorem sanitizeTitle_data (title : String) :
    (sanitizeTitle title).data =
      (if (pyStripChars (title.data.filter allowedChar)).length > 50
       then (pyStripChars (title.data.filter allowedChar)).take 50
       else pyStripChars (title.data.filter allowedChar)) := rfl

theorem sanitizeTitle_chars (title : String) :
    ((sanitizeTitle title).data.all allowedChar) = true := by
  rw [List.all_eq_true]
  intro c hc
  rw [sanitizeTitle_data] at hc
  have hmem : c ∈ pyStripChars (title.data.filter allowedChar) := by
    by_cases hl : (pyStripChars (title.data.filter allowedChar)).length > 50
    · rw [if_pos hl] at hc
      exact List.take_subset 50 _ hc
    · rw [if_neg hl] at hc
      exact hc
  exact List.of_mem_filter (mem_pyStrip _ c hmem)

theorem sanitizeTitle_len (title : String) : (sanitizeTitle title).length ≤ 50 := by
  have hlen : (sanitizeTitle title).length = ((sanitizeTitle title).data).length := rfl
  rw [hlen, sanitizeTitle_data]
  by_cases hl : (pyStripChars (title.data.filter allowedChar)).length > 50
  · rw [if_pos hl, List.length_take]
    omega
  · rw [if_neg hl]
    omega

/-- Claim C6 (amended): the display filename is the extracted title with every
character outside alphanumeric/space/hyphen/underscore removed, stripped and
truncated to at most 50 characters, plus "." and the extension for the kind
("mp4" for video, "mp3" otherwise).  The sanitized part may however be EMPTY
(a title with no allowed characters yields e.g. ".mp4" — counterexample), so
"non-empty before the extension" does not hold. -/
theorem result_filename_shape (title : String) (env : RunEnv) (url dtype : String) :
    (((sanitizeTitle title).data.all allowedChar) = true ∧
      (sanitizeTitle title).length ≤ 50) ∧
    ((finalTask env url dtype).status = Status.completed →
      (finalTask env url dtype).filename =
        some (sanitizeTitle (titleFromInfo env.info) ++ "." ++ extFor dtype)) := by
  refine ⟨⟨sanitizeTitle_chars title, sanitizeTitle_len title⟩, ?_⟩
  intro h
  cases hout : env.outcome with
  | error e =>
    obtain ⟨h1, _, _⟩ := finalTask_error env url dtype e hout
    rw [h1] at h
    exact Status.noConfusion h
  | ok fpOpt =>
    cases fpOpt with
    | none =>
      obtain ⟨h1, _⟩ := finalTask_fail_of_assigns env url dtype
        (runAssigns_ok_none env dtype hout)
      rw [h1] at h
      exact Status.noConfusion h
    | some fp =>
      by_cases hfs : (env.fs fp).isSome = true
      · exact (finalTask_done env url dtype fp hout hfs).2.2.2
      · have hfs2 : (env.fs fp).isSome = false := by
          revert hfs
          cases (env.fs fp).isSome <;> simp
        obtain ⟨h1, _⟩ := finalTask_fail_of_assigns env url dtype
          (runAssigns_ok_some_false env dtype fp hout hfs2)
        rw [h1] at h
        exact Status.noConfusion h

/-- Claim C6 witness: a concrete completed run with a title containing
disallowed characters, and the filename produced through the theorem. -/
theorem result_filename_shape_witness :
    (((sanitizeTitle "My Video: 2024?!").data.all allowedChar) = true ∧
      (sanitizeTitle "My Video: 2024?!").length ≤ 50) ∧
    (finalTask (runEnvCobaltOk 4 "My Video: 2024?!") "u" "video").filename =
      some (sanitizeTitle (titleFromInfo (runEnvCobaltOk 4 "My Video: 2024?!").info)
            ++ "." ++ extFor "video") :=
  ⟨(result_filename_shape "My Video: 2024?!"
      (runEnvCobaltOk 4 "My Video: 2024?!") "u" "video").1,
   (result_filename_shape "My Video: 2024?!"
      (runEnvCobaltOk 4 "My Video: 2024?!") "u" "video").2 (by decide)⟩

/-- Claim C6 counterexample: a title with no allowed characters ("!!!") yields
the display filename ".mp4" for a completed task — the part before the
extension is empty, refuting "non-empty before the extension". -/
theorem empty_filename_counterexample :
    (finalTask (runEnvCobaltOk 4 "!!!") "u" "video").status = Status.completed ∧
    (finalTask (runEnvCobaltOk 4 "!!!") "u" "video").filename = some ".mp4" := by decide

/-! ## Progress-stream lemmas (app.py 109-138) -/

theorem gen_dropLast_nonTerminal (tid : String) :
    ∀ views : List (Option TaskRec),
      ∀ s ∈ (getProgressGen tid views).dropLast, nonTerminalSnap s = true := by
  intro views
  induction views with
  | nil =>
    intro s hs
    simp [getProgressGen] at hs
  | cons v rest ih =>
    cases v with
    | none =>
      intro s hs
      simp [getProgressGen] at hs
    | some t =>
      intro s hs
      by_cases hc : t.status = Status.completed
      · simp [getProgressGen, hc] at hs
      · by_cases hf : t.status = Status.failed
        · simp [getProgressGen, hc, hf] at hs
        · rw [getProgressGen, if_neg hc, if_neg hf] at hs
          cases hl : getProgressGen tid rest with
          | nil =>
            rw [hl] at hs
            simp at hs
          | cons b l =>
            rw [hl] at hs
            rw [List.dropLast_cons₂] at hs
            rcases List.mem_cons.mp hs with h | h
            · rw [h]
              unfold snapOf nonTerminalSnap
              rw [if_neg hc]
              simp [hc, hf]
            · rw [← hl] at h
              exact ih s h

/-- Claim C7: if the task id is unknown at the first poll, the stream yields
exactly one "not found" snapshot and ends; and a terminal (completed/failed)
or not-found snapshot is only ever the last snapshot yielded — once one is
delivered, no further snapshots follow for that task. -/
theorem progress_stream_termination (tid : String) (views : List (Option TaskRec)) :
    (∀ rest, views = none :: rest → getProgressGen tid views = [Snap.notFound]) ∧
    (∀ s ∈ (getProgressGen tid views).dropLast, nonTerminalSnap s = true) := by
  constructor
  · intro rest h
    rw [h]
    rfl
  · exact gen_dropLast_nonTerminal tid views

/-- Claim C7 witness: an evicted id yields the single not-found snapshot; a
non-terminal snapshot observed before the stream's last element is indeed
non-terminal. -/
theorem progress_stream_termination_witness :
    getProgressGen "t1" [none] = [Snap.notFound] ∧
    nonTerminalSnap (snapOf "t1" (initTask "u" "video")) = true :=
  ⟨(progress_stream_termination "t1" [none]).1 [] rfl,
   (progress_stream_termination "t1" [some (initTask "u" "video"), none]).2
     (snapOf "t1" (initTask "u" "video")) (by decide)⟩

/-- Claim C8 (amended): on a fetch of a completed task whose file exists, the
file is streamed and a cleanup is scheduled; after the fixed 60-second grace
delay the cleanup removes the file and deletes the task record.  The file is
NOT exposed at most once — fetches repeated within the grace window stream it
again (counterexample; §8 of the spec itself calls the fetch idempotent). -/
theorem fetch_and_cleanup (task : TaskRec) (fs : String → Option Nat) (fp : String)
    (hst : task.status = Status.completed) (hfp : task.filepath = some fp)
    (hex : (fs fp).isSome = true) :
    downloadFile (some task) fs = (FetchResult.sendFile fp task.filename, true) ∧
    (cleanupRun fp fs).1 = none ∧
    (cleanupRun fp fs).2 fp = none ∧
    graceDelaySeconds = 60 := by
  refine ⟨?_, rfl, by simp [cleanupRun], rfl⟩
  obtain ⟨v, hv⟩ := Option.isSome_iff_exists.mp hex
  unfold downloadFile
  simp [hst, hfp, hv]

/-- Claim C8 witness: the concrete completed task is streamed with cleanup
scheduled, and the cleanup removes file and record; the grace delay is 60 s. -/
theorem fetch_and_cleanup_witness :
    downloadFile (some taskDone) fsDone
      = (FetchResult.sendFile "tmp/t1.mp4" (some "a.mp4"), true) ∧
    (cleanupRun "tmp/t1.mp4" fsDone).1 = none ∧
    (cleanupRun "tmp/t1.mp4" fsDone).2 "tmp/t1.mp4" = none ∧
    graceDelaySeconds = 60 := by
  have h := fetch_and_cleanup taskDone fsDone "tmp/t1.mp4" (by decide) (by decide) (by decide)
  exact ⟨h.1, h.2.1, h.2.2.1, h.2.2.2⟩

/-- Claim C8 counterexample: the completed file is NOT exposed for transfer at
most once per task.  `download_file` mutates neither the task store nor the
filesystem (`fetchStateAfter` is the post-fetch state; deletion happens only in
`cleanup_later` after `time.sleep(60)`), so a second fetch within the grace
window streams the same file again. -/
theorem fetch_twice_counterexample :
    (downloadFile (some taskDone) fsDone).1
      = FetchResult.sendFile "tmp/t1.mp4" (some "a.mp4") ∧
    (downloadFile (fetchStateAfter (some taskDone) fsDone).1
        (fetchStateAfter (some taskDone) fsDone).2).1
      = FetchResult.sendFile "tmp/t1.mp4" (some "a.mp4") := by decide

/-- Claim C9: the runner converts every collaborator outcome into a terminal
state — for every behaviour the final status is completed or failed, and a
raised exception `e` becomes status failed with the truncated human-readable
message "오류: " ++ e[:100], whose length is bounded by 104 characters; no
outcome leaves `run_download` without a terminal record state. -/
theorem runner_catches_all (env : RunEnv) (url dtype : String) :
    ((finalTask env url dtype).status = Status.completed ∨
      (finalTask env url dtype).status = Status.failed) ∧
    (∀ e, env.outcome = Except.error e →
      (finalTask env url dtype).status = Status.failed ∧
      (finalTask env url dtype).message = "오류: " ++ strTake 100 e ∧
      ((finalTask env url dtype).message).length ≤ 104) := by
  constructor
  · cases hout : env.outcome with
    | error e => exact Or.inr (finalTask_error env url dtype e hout).1
    | ok fpOpt =>
      cases fpOpt with
      | none =>
        exact Or.inr (finalTask_fail_of_assigns env url dtype
          (runAssigns_ok_none env dtype hout)).1
      | some fp =>
        by_cases hfs : (env.fs fp).isSome = true
        · exact Or.inl (finalTask_done env url dtype fp hout hfs).1
        · have hfs2 : (env.fs fp).isSome = false := by
            revert hfs
            cases (env.fs fp).isSome <;> simp
          exact Or.inr (finalTask_fail_of_assigns env url dtype
            (runAssigns_ok_some_false env dtype fp hout hfs2)).1
  · intro e hout
    obtain ⟨h1, h2, _⟩ := finalTask_error env url dtype e hout
    refine ⟨h1, h2, ?_⟩
    rw [h2, String.length_append]
    have hb : (strTake 100 e).length ≤ 100 := by
      show (e.data.take 100).length ≤ 100
      rw [List.length_take]
      omega
    have hk : ("오류: " : String).length = 4 := rfl
    omega

/-- Claim C9 witness: a raised "boom" becomes a failed state with the truncated
message. -/
theorem runner_catches_all_witness :
    (finalTask runEnvRaise "u" "video").status = Status.failed ∧
    (finalTask runEnvRaise "u" "video").message = "오류: " ++ strTake 100 "boom" := by
  have h := (runner_catches_all runEnvRaise "u" "video").2 "boom" rfl
  exact ⟨h.1, h.2.1⟩

/-- Claim C10: every URL matched by the YouTube pattern is accepted by
`validate_url` — the YouTube-classified URLs routed to cobalt are a subset of
the URLs accepted at submission. -/
theorem youtube_implies_valid (url : String) (h : is_youtube_url url = true) :
    validate_url url = true := by
  unfold validate_url
  unfold is_youtube_url at h
  rw [h]
  simp

/-- Claim C10 witness: a concrete YouTube URL is classified as YouTube and
accepted by validation via the theorem. -/
theorem youtube_implies_valid_witness :
    is_youtube_url "youtu.be/abcdefghijk" = true ∧
    validate_url "youtu.be/abcdefghijk" = true :=
  ⟨by decide, youtube_implies_valid "youtu.be/abcdefghijk" (by decide)⟩
